import Mathlib

/-!
Power sequencing and clock switching of the MT8192 Mali platform glue.

A shallow embedding of `mali_kbase_runtime_pm.c`
(`kernel/drivers/gpu/arm/valhall/platform/mt8192`).

Every function of the driver is a Lean function from the device state and an
assignment of results to the kernel calls it makes (`HW`) to the new state, the
list of kernel calls it issued, in order and with their results, and its return
value.  Within one invocation every kernel call is identified by its kind and
its arguments (the n-th poll of the idle register by n), so an arbitrary `HW` is
an arbitrary behaviour of the hardware for that invocation; consecutive
invocations take separate assignments.

Machine integers: `int` values are `Int`, `unsigned long` values and pointers
are `Nat` below `2 ^ 64`, `u32` values are `Nat` below `2 ^ 32`; wrap-around is
written out with `%`.
-/

namespace MaliMt8192

/-! ## Data model -/

/-- The roles of the four GPU clocks: `enum gpu_clk_idx {main, sub, mux, cg}`. -/
inductive gpu_clk_idx where
  | main
  | sub
  | mux
  | cg
  deriving DecidableEq

/-- The registers of the mfgcfg block that `check_bus_idle` touches. -/
inductive Reg where
  | MFG_QCHANNEL_CON
  | MFG_DEBUG_SEL
  | MFG_DEBUG_TOP
  deriving DecidableEq

/-- A kernel call issued by the driver.  Calls on `kbdev->regulators[i]` and on
`kbdev->pm_domain_devs[i]` record the index `i` of the handle they pass;
`dev_pm_domain_detach` records the handle itself. -/
inductive Call where
  | regulator_enable (i : Nat)
  | pm_runtime_get_sync (i : Nat)
  | clk_bulk_prepare_enable (num_clks : Nat)
  | writel (val : Nat) (reg : Reg)
  | readl (reg : Reg)
  | clk_bulk_disable_unprepare (num_clks : Nat)
  | pm_runtime_mark_last_busy (i : Nat)
  | pm_runtime_put_autosuspend (i : Nat)
  | regulator_disable (i : Nat)
  | clk_set_parent (clk parent : gpu_clk_idx)
  | clk_set_rate (clk : gpu_clk_idx) (rate : Nat)
  | dev_pm_domain_attach_by_name (i : Nat)
  | dev_pm_domain_detach (dev : Nat)
  | pm_runtime_set_autosuspend_delay (i : Nat) (delay : Nat)
  | pm_runtime_use_autosuspend (i : Nat)
  | devm_kzalloc
  | devm_kcalloc (n : Nat)
  | devm_clk_bulk_get (num_clks : Nat)
  | regulator_set_voltage (i : Nat) (min_uV max_uV : Nat)
  | of_find_compatible_node
  | of_iomap
  deriving DecidableEq

/-- A call together with the value it returned (`0` for a `void` call, the
address for a call that returns a pointer). -/
structure Event where
  call : Call
  ret : Int
  deriving DecidableEq

/-- The results the kernel gives to the calls of one invocation. -/
structure HW where
  regulator_enable : Nat → Int
  pm_runtime_get_sync : Nat → Int
  clk_bulk_prepare_enable : Int
  /-- The value of the n-th read of `MFG_DEBUG_TOP`. -/
  readl_MFG_DEBUG_TOP : Nat → Nat
  pm_runtime_put_autosuspend : Nat → Int
  regulator_disable : Nat → Int
  clk_set_parent : gpu_clk_idx → gpu_clk_idx → Int
  clk_set_rate : gpu_clk_idx → Nat → Int
  of_count_phandle_with_args : Int
  of_property_count_strings : Int
  of_property_read_string_array : Int
  dev_pm_domain_attach_by_name : Nat → Nat
  devm_kzalloc : Nat
  devm_kcalloc : Nat
  devm_clk_bulk_get : Int
  regulator_set_voltage : Nat → Int
  of_find_compatible_node : Nat
  of_iomap : Nat

/-- The macros of `mali_kbase_config_platform.h`, which the driver includes;
their values are parameters of the development. -/
structure Config where
  GPU_CORE_NUM : Nat
  BUS_IDLE_BIT : Nat
  GPU_FREQ_KHZ_MAX : Nat
  VGPU_MAX_VOLT : Nat
  VSRAM_GPU_MAX_VOLT : Nat
  VSRAM_GPU_MIN_VOLT : Nat
  MIN_VOLT_BIAS : Nat
  MAX_VOLT_BIAS : Nat
  VOLT_TOL : Nat

/-- The platform context: `struct mfg_base`. -/
structure mfg_base where
  num_clks : Nat
  clks : Nat
  g_mfg_base : Nat
  is_powered : Bool
  deriving DecidableEq

/-- The fields of `struct kbase_device` the driver uses.  `pm_domain_devs` is
the fixed-size array of domain handles (its length is `ARRAY_SIZE`), `0` is
`NULL`; `current_freqs0` is `current_freqs[0]`; `devfreq_ops_installed` tells
whether `devfreq_ops.set_frequency` and `.voltage_range_check` were assigned. -/
structure kbase_device where
  nr_regulators : Nat
  regulators : List Nat
  num_pm_domains : Int
  pm_domain_devs : List Nat
  current_freqs0 : Nat
  current_voltages : List Nat
  platform_context : Option mfg_base
  devfreq_ops_installed : Bool
  deriving DecidableEq

/-- How an invocation ends: it returns, it dereferences a `NULL`
`platform_context`, or it is still polling when the fuel runs out; `spin`
holds the state and the calls issued up to that point. -/
inductive Run (α : Type) where
  | ret (a : α)
  | oops
  | spin (a : α)
  deriving DecidableEq

/-! ## Errno values and pointer macros of the kernel -/

def EINVAL : Int := 22
def ENOMEM : Int := 12
def ENODEV : Int := 19
def ENODATA : Int := 61
def EPROBE_DEFER : Int := 517
def MAX_ERRNO : Nat := 4095

/-- `IS_ERR_VALUE(x)`: `x >= (unsigned long)-MAX_ERRNO`. -/
def IS_ERR_VALUE (x : Nat) : Bool := decide (2 ^ 64 - MAX_ERRNO ≤ x)

/-- `IS_ERR_OR_NULL(ptr)`. -/
def IS_ERR_OR_NULL (ptr : Nat) : Bool := ptr == 0 || IS_ERR_VALUE ptr

/-- `PTR_ERR(ptr)`: the pointer read as a `long`. -/
def PTR_ERR (ptr : Nat) : Int := if ptr < 2 ^ 63 then (ptr : Int) else (ptr : Int) - 2 ^ 64

/-- Conversion of a `long` to `int`. -/
def to_int (x : Int) : Int := (x + 2 ^ 31) % 2 ^ 32 - 2 ^ 31

/-! ## Power sequencer -/

/-- The loop `for (i = i0; i < i0 + n; i++) { error = f(i); if (error < 0) return error; }`
of `pm_callback_power_on`: the events issued and the error that ended it. -/
def enable_loop (call : Nat → Call) (res : Nat → Int) : Nat → Nat → List Event × Option Int
  | 0, _ => ([], none)
  | n + 1, i =>
    let error := res i
    if error < 0 then ([⟨call i, error⟩], some error)
    else
      let r := enable_loop call res n (i + 1)
      (⟨call i, error⟩ :: r.1, r.2)

def pm_callback_power_on (hw : HW) (kbdev : kbase_device) :
    Run (kbase_device × List Event × Int) :=
  match kbdev.platform_context with
  | none => .oops
  | some mfg =>
    if mfg.is_powered then .ret (kbdev, [], 0)
    else
      match enable_loop Call.regulator_enable hw.regulator_enable kbdev.nr_regulators 0 with
      | (ev1, some error) => .ret (kbdev, ev1, error)
      | (ev1, none) =>
        match enable_loop Call.pm_runtime_get_sync hw.pm_runtime_get_sync
            kbdev.num_pm_domains.toNat 0 with
        | (ev2, some error) => .ret (kbdev, ev1 ++ ev2, error)
        | (ev2, none) =>
          let error := hw.clk_bulk_prepare_enable
          let ev3 : List Event := [⟨.clk_bulk_prepare_enable mfg.num_clks, error⟩]
          if error < 0 then .ret (kbdev, ev1 ++ ev2 ++ ev3, error)
          else
            .ret ({ kbdev with platform_context := some { mfg with is_powered := true } },
              ev1 ++ ev2 ++ ev3, 1)

/-- The polling loop of `check_bus_idle`, the n-th read first:
`do { val = readl(MFG_DEBUG_TOP); } while ((val & BUS_IDLE_BIT) != BUS_IDLE_BIT);`.
The fuel bounds the number of reads; the result is the reads issued and whether
the loop was left (`false`: the fuel ran out before the idle bit was read). -/
def poll_bus_idle (cfg : Config) (hw : HW) : Nat → Nat → List Event × Bool
  | 0, _ => ([], false)
  | fuel + 1, n =>
    let val : Nat := hw.readl_MFG_DEBUG_TOP n % 2 ^ 32
    let e : Event := ⟨.readl .MFG_DEBUG_TOP, (val : Int)⟩
    if val &&& cfg.BUS_IDLE_BIT ≠ cfg.BUS_IDLE_BIT then
      let r := poll_bus_idle cfg hw fuel (n + 1)
      (e :: r.1, r.2)
    else ([e], true)

def check_bus_idle (cfg : Config) (hw : HW) (fuel : Nat) : List Event × Bool :=
  let r := poll_bus_idle cfg hw fuel 0
  (⟨.writel 1 .MFG_QCHANNEL_CON, 0⟩ :: ⟨.writel 3 .MFG_DEBUG_SEL, 0⟩ :: r.1, r.2)

/-- The loop `for (i = n - 1; i >= 0; i--)` over the power domains in
`pm_callback_power_off`; a negative result is only logged. -/
def put_autosuspend_loop (hw : HW) : Nat → List Event
  | 0 => []
  | n + 1 =>
    ⟨.pm_runtime_mark_last_busy n, 0⟩ ::
      ⟨.pm_runtime_put_autosuspend n, hw.pm_runtime_put_autosuspend n⟩ ::
      put_autosuspend_loop hw n

/-- The loop `for (i = n - 1; i >= 0; i--)` over the regulators in
`pm_callback_power_off`; a negative result is only logged. -/
def regulator_disable_loop (hw : HW) : Nat → List Event
  | 0 => []
  | n + 1 => ⟨.regulator_disable n, hw.regulator_disable n⟩ :: regulator_disable_loop hw n

def pm_callback_power_off (cfg : Config) (hw : HW) (fuel : Nat) (kbdev : kbase_device) :
    Run (kbase_device × List Event) :=
  match kbdev.platform_context with
  | none => .oops
  | some mfg =>
    if !mfg.is_powered then .ret (kbdev, [])
    else
      let kbdev1 := { kbdev with platform_context := some { mfg with is_powered := false } }
      match check_bus_idle cfg hw fuel with
      | (ev1, false) => .spin (kbdev1, ev1)
      | (ev1, true) =>
        .ret (kbdev1,
          ev1 ++ [⟨.clk_bulk_disable_unprepare mfg.num_clks, 0⟩]
            ++ put_autosuspend_loop hw kbdev.num_pm_domains.toNat
            ++ regulator_disable_loop hw kbdev.nr_regulators)

/-! ## Power-domain discovery -/

/-- The loop of `pm_domain_term` over the slots of `pm_domain_devs`: every
non-`NULL` slot is passed to `dev_pm_domain_detach`; the slots are not
modified. -/
def detach_loop : List Nat → List Event
  | [] => []
  | d :: ds =>
    if d ≠ 0 then ⟨.dev_pm_domain_detach d, 0⟩ :: detach_loop ds else detach_loop ds

def pm_domain_term (kbdev : kbase_device) : List Event :=
  detach_loop kbdev.pm_domain_devs

/-- The attach loop of `pm_domain_init`, `n` iterations from index `i`: the
slots, the calls issued, and the error of the attach that failed, if any. -/
def attach_loop (hw : HW) : Nat → Nat → List Nat → List Nat × List Event × Option Int
  | 0, _, devs => (devs, [], none)
  | n + 1, i, devs =>
    let p : Nat := hw.dev_pm_domain_attach_by_name i % 2 ^ 64
    let e : Event := ⟨.dev_pm_domain_attach_by_name i, (p : Int)⟩
    if IS_ERR_OR_NULL p then
      let err := to_int (if PTR_ERR p ≠ 0 then PTR_ERR p else -ENODATA)
      (devs.set i 0, [e], some err)
    else
      let r := attach_loop hw n (i + 1) (devs.set i p)
      (r.1, e :: r.2.1, r.2.2)

def pm_domain_init (hw : HW) (kbdev : kbase_device) : kbase_device × List Event × Int :=
  let num_domains := hw.of_count_phandle_with_args
  let num_domain_names := hw.of_property_count_strings
  if num_domains < 2 ∧ kbdev.num_pm_domains < 2 then (kbdev, [], 0)
  else if num_domains ≠ num_domain_names then (kbdev, [], -EINVAL)
  else if num_domains ≠ kbdev.num_pm_domains then (kbdev, [], -EINVAL)
  else if (num_domains % 2 ^ 64).toNat > kbdev.pm_domain_devs.length then (kbdev, [], -EINVAL)
  else
    let err := hw.of_property_read_string_array
    if err < 0 then (kbdev, [], err)
    else
      match attach_loop hw num_domains.toNat 0 kbdev.pm_domain_devs with
      | (devs, evs, none) => ({ kbdev with pm_domain_devs := devs }, evs, 0)
      | (devs, evs, some err) =>
        let kbdev1 := { kbdev with pm_domain_devs := devs }
        (kbdev1, evs ++ pm_domain_term kbdev1, err)

/-! ## Lifecycle -/

def get_mfg_base (hw : HW) : Nat × List Event :=
  let node := hw.of_find_compatible_node
  if node ≠ 0 then
    (hw.of_iomap, [⟨.of_find_compatible_node, (node : Int)⟩, ⟨.of_iomap, (hw.of_iomap : Int)⟩])
  else (0, [⟨.of_find_compatible_node, (node : Int)⟩])

/-- The loop of `mali_mfgsys_init` that sets the voltage of every regulator. -/
def set_voltage_loop (cfg : Config) (hw : HW) :
    Nat → Nat → List Nat → List Nat × List Event × Option Int
  | 0, _, volts => (volts, [], none)
  | n + 1, i, volts =>
    let volt := if i = 0 then cfg.VGPU_MAX_VOLT else cfg.VSRAM_GPU_MAX_VOLT
    let err := hw.regulator_set_voltage i
    let e : Event := ⟨.regulator_set_voltage i volt (volt + cfg.VOLT_TOL), err⟩
    if err < 0 then (volts, [e], some err)
    else
      let r := set_voltage_loop cfg hw n (i + 1) (volts.set i volt)
      (r.1, e :: r.2.1, r.2.2)

def mali_mfgsys_init (cfg : Config) (hw : HW) (kbdev : kbase_device) (mfg : mfg_base) :
    kbase_device × mfg_base × List Event × Int :=
  let kbdev_n := { kbdev with num_pm_domains := (cfg.GPU_CORE_NUM : Int) }
  match pm_domain_init hw kbdev_n with
  | (kbdev1, ev1, err) =>
    if err < 0 then (kbdev1, mfg, ev1, err)
    else if (List.range kbdev1.nr_regulators).any (fun i => kbdev1.regulators.getD i 0 == 0) then
      (kbdev1, mfg, ev1, -EINVAL)
    else
      let mfg1 := { mfg with num_clks := 4, clks := hw.devm_kcalloc }
      let ev2 := ev1 ++ [⟨.devm_kcalloc 4, (hw.devm_kcalloc : Int)⟩]
      if hw.devm_kcalloc = 0 then (kbdev1, mfg1, ev2, -ENOMEM)
      else
        let err := hw.devm_clk_bulk_get
        let ev3 := ev2 ++ [⟨.devm_clk_bulk_get 4, err⟩]
        if err ≠ 0 then (kbdev1, mfg1, ev3, err)
        else
          match set_voltage_loop cfg hw kbdev1.nr_regulators 0 kbdev1.current_voltages with
          | (volts, ev4, some err) =>
            ({ kbdev1 with current_voltages := volts }, mfg1, ev3 ++ ev4, err)
          | (volts, ev4, none) =>
            let kbdev2 := { kbdev1 with current_voltages := volts }
            let base := get_mfg_base hw
            let mfg2 := { mfg1 with g_mfg_base := base.1 }
            if base.1 = 0 then (kbdev2, mfg2, ev3 ++ ev4 ++ base.2, -ENODEV)
            else (kbdev2, { mfg2 with is_powered := false }, ev3 ++ ev4 ++ base.2, 0)

/-- The rate `GPU_FREQ_KHZ_MAX * 1000` that `platform_init` passes to
`clk_set_rate`: the product is computed in `int` (wrapping) and converted to
`unsigned long`. -/
def GPU_FREQ_MAX_HZ (cfg : Config) : Nat :=
  (to_int ((cfg.GPU_FREQ_KHZ_MAX : Int) * 1000) % 2 ^ 64).toNat

/-- The loop of `platform_init` that configures autosuspend on every domain. -/
def autosuspend_loop : Nat → Nat → List Event
  | 0, _ => []
  | n + 1, i =>
    ⟨.pm_runtime_set_autosuspend_delay i 50, 0⟩ :: ⟨.pm_runtime_use_autosuspend i, 0⟩ ::
      autosuspend_loop n (i + 1)

def platform_init (cfg : Config) (hw : HW) (kbdev : kbase_device) :
    kbase_device × List Event × Int :=
  let ev0 : List Event := [⟨.devm_kzalloc, (hw.devm_kzalloc : Int)⟩]
  if hw.devm_kzalloc = 0 then (kbdev, ev0, -ENOMEM)
  else
    match mali_mfgsys_init cfg hw kbdev ⟨0, 0, 0, false⟩ with
    | (kbdev1, mfg, ev1, err) =>
      if err ≠ 0 then (kbdev1, ev0 ++ ev1, err)
      else
        let kbdev2 := { kbdev1 with platform_context := some mfg }
        let ev2 := ev0 ++ ev1 ++ autosuspend_loop kbdev2.num_pm_domains.toNat 0
        let err1 := hw.clk_set_parent .mux .sub
        let e1 : Event := ⟨.clk_set_parent .mux .sub, err1⟩
        if err1 ≠ 0 then (kbdev2, ev2 ++ [e1], err1)
        else
          let err2 := hw.clk_set_rate .main (GPU_FREQ_MAX_HZ cfg)
          let e2 : Event := ⟨.clk_set_rate .main (GPU_FREQ_MAX_HZ cfg), err2⟩
          if err2 ≠ 0 then (kbdev2, ev2 ++ [e1, e2], err2)
          else
            let err3 := hw.clk_set_parent .mux .main
            let e3 : Event := ⟨.clk_set_parent .mux .main, err3⟩
            if err3 ≠ 0 then (kbdev2, ev2 ++ [e1, e2, e3], err3)
            else ({ kbdev2 with devfreq_ops_installed := true }, ev2 ++ [e1, e2, e3], 0)

def platform_term (kbdev : kbase_device) : kbase_device × List Event :=
  let kbdev1 := { kbdev with platform_context := none }
  (kbdev1, pm_domain_term kbdev1)

/-! ## Clock-switch engine -/

/-- `clamp_t(unsigned long, val, lo, hi)`: `min(max(val, lo), hi)`. -/
def clamp_t (val lo hi : Nat) : Nat := min (max val lo) hi

/-- The pair `(voltages[0], voltages[1])` after `voltage_range_check`; the
difference and the sum are `unsigned long` operations. -/
def voltage_range_check (cfg : Config) (voltages : Nat × Nat) : Nat × Nat :=
  let diff := (voltages.2 + 2 ^ 64 - voltages.1) % 2 ^ 64
  let v1 :=
    if diff < cfg.MIN_VOLT_BIAS ∨ diff > cfg.MAX_VOLT_BIAS then
      (voltages.1 + cfg.MIN_VOLT_BIAS) % 2 ^ 64
    else voltages.2
  (voltages.1, clamp_t v1 cfg.VSRAM_GPU_MIN_VOLT cfg.VSRAM_GPU_MAX_VOLT)

def set_frequency (hw : HW) (kbdev : kbase_device) (freq : Nat) :
    Run (kbase_device × List Event × Int) :=
  if kbdev.current_freqs0 ≠ freq then
    match kbdev.platform_context with
    | none => .oops
    | some _ =>
      let err1 := hw.clk_set_parent .mux .sub
      let e1 : Event := ⟨.clk_set_parent .mux .sub, err1⟩
      if err1 ≠ 0 then .ret (kbdev, [e1], err1)
      else
        let err2 := hw.clk_set_rate .main freq
        let e2 : Event := ⟨.clk_set_rate .main freq, err2⟩
        if err2 ≠ 0 then .ret (kbdev, [e1, e2], err2)
        else
          let kbdev1 := { kbdev with current_freqs0 := freq }
          let err3 := hw.clk_set_parent .mux .main
          let e3 : Event := ⟨.clk_set_parent .mux .main, err3⟩
          if err3 ≠ 0 then .ret (kbdev1, [e1, e2, e3], err3)
          else .ret (kbdev1, [e1, e2, e3], 0)
  else .ret (kbdev, [], 0)

/-! ## Descriptions of call sequences, used to state the theorems -/

/-- The source the mux selects after the calls `evs`, when it selected `p`
before: a `clk_set_parent` on the mux that returned `0` selects its parent, a
failed one changes nothing. -/
def mux_parent_after : gpu_clk_idx → List Event → gpu_clk_idx
  | p, [] => p
  | p, e :: evs =>
    match e.call with
    | .clk_set_parent .mux q => mux_parent_after (if e.ret = 0 then q else p) evs
    | _ => mux_parent_after p evs

/-- Every `clk_set_rate` on the main clock in `evs` is issued while the mux
selects `sub` (the mux selects `p` before `evs`). -/
def rate_set_while_parked : gpu_clk_idx → List Event → Bool
  | _, [] => true
  | p, e :: evs =>
    match e.call with
    | .clk_set_parent .mux q => rate_set_while_parked (if e.ret = 0 then q else p) evs
    | .clk_set_rate .main _ => decide (p = .sub) && rate_set_while_parked p evs
    | _ => rate_set_while_parked p evs

/-- The domain handles attached and not yet detached after the calls `evs`,
when `live` were attached before; `none` when `dev_pm_domain_detach` is passed
a handle that is not attached at that point (never attached, or already
detached). -/
def live_handles : List Nat → List Event → Option (List Nat)
  | live, [] => some live
  | live, e :: evs =>
    match e.call with
    | .dev_pm_domain_attach_by_name _ =>
      if IS_ERR_OR_NULL e.ret.toNat then live_handles live evs
      else live_handles (e.ret.toNat :: live) evs
    | .dev_pm_domain_detach d =>
      if d ∈ live then live_handles (live.erase d) evs else none
    | _ => live_handles live evs

/-- The handle that attach number `i` returns. -/
def attached_ptr (hw : HW) (i : Nat) : Nat := hw.dev_pm_domain_attach_by_name i % 2 ^ 64

/-- The clamp of the specification: `x` brought into `[lo, hi]`. -/
def clamp (x lo hi : Nat) : Nat := if x < lo then lo else if hi < x then hi else x

/-- The calls `call 0, ..., call (n - 1)` with their results. -/
def calls_in_order (call : Nat → Call) (res : Nat → Int) (n : Nat) : List Event :=
  (List.range n).map (fun i => ⟨call i, res i⟩)

/-- The idle gate when the idle bit is first seen at read number `n`: the two
register writes, then reads `0, ..., n` of `MFG_DEBUG_TOP`. -/
def idle_gate_calls (hw : HW) (n : Nat) : List Event :=
  ⟨.writel 1 .MFG_QCHANNEL_CON, 0⟩ :: ⟨.writel 3 .MFG_DEBUG_SEL, 0⟩ ::
    (List.range (n + 1)).map (fun i =>
      (⟨.readl .MFG_DEBUG_TOP, ((hw.readl_MFG_DEBUG_TOP i % 2 ^ 32 : Nat) : Int)⟩ : Event))

/-- The idle gate while it is still polling, after `m` reads: the two register
writes, then reads `0, ..., m - 1` of `MFG_DEBUG_TOP`. -/
def idle_gate_polling (hw : HW) (m : Nat) : List Event :=
  ⟨.writel 1 .MFG_QCHANNEL_CON, 0⟩ :: ⟨.writel 3 .MFG_DEBUG_SEL, 0⟩ ::
    (List.range m).map (fun i =>
      (⟨.readl .MFG_DEBUG_TOP, ((hw.readl_MFG_DEBUG_TOP i % 2 ^ 32 : Nat) : Int)⟩ : Event))

/-- Read number `n` of `MFG_DEBUG_TOP` shows the bus idle. -/
def reads_idle (cfg : Config) (hw : HW) (n : Nat) : Bool :=
  decide ((hw.readl_MFG_DEBUG_TOP n % 2 ^ 32) &&& cfg.BUS_IDLE_BIT = cfg.BUS_IDLE_BIT)

/-- For each domain `n - 1, ..., 0`: mark-last-busy, then put-autosuspend. -/
def domain_release_calls (hw : HW) (n : Nat) : List Event :=
  (List.range n).reverse.flatMap (fun i =>
    [⟨.pm_runtime_mark_last_busy i, 0⟩,
     ⟨.pm_runtime_put_autosuspend i, hw.pm_runtime_put_autosuspend i⟩])

/-- The calls `regulator_disable (n - 1), ..., regulator_disable 0`. -/
def regulator_disable_calls (hw : HW) (n : Nat) : List Event :=
  (List.range n).reverse.map (fun i => ⟨.regulator_disable i, hw.regulator_disable i⟩)

/-- A hardware on which every call succeeds, every attach returns a fresh
valid handle and the bus is idle at the first poll (for `BUS_IDLE_BIT = 4`). -/
def hw_ok : HW where
  regulator_enable := fun _ => 0
  pm_runtime_get_sync := fun _ => 0
  clk_bulk_prepare_enable := 0
  readl_MFG_DEBUG_TOP := fun _ => 4
  pm_runtime_put_autosuspend := fun _ => 0
  regulator_disable := fun _ => 0
  clk_set_parent := fun _ _ => 0
  clk_set_rate := fun _ _ => 0
  of_count_phandle_with_args := 2
  of_property_count_strings := 2
  of_property_read_string_array := 0
  dev_pm_domain_attach_by_name := fun i => 4096 * (i + 1)
  devm_kzalloc := 65536
  devm_kcalloc := 131072
  devm_clk_bulk_get := 0
  regulator_set_voltage := fun _ => 0
  of_find_compatible_node := 196608
  of_iomap := 262144

/-- A hardware whose status register never shows the idle bit. -/
def hw_stuck : HW := { hw_ok with readl_MFG_DEBUG_TOP := fun _ => 0 }

/-- A hardware on which the attach of domain 0 succeeds and the attach of
domain 1 returns `ERR_PTR(-EPROBE_DEFER)`. -/
def hw_defer : HW :=
  { hw_ok with
    dev_pm_domain_attach_by_name := fun i => if i = 0 then 4096 else 2 ^ 64 - 517 }

/-- A freshly allocated device: two regulators, every domain slot empty, no
frequency recorded, no platform context. -/
def kbdev_fresh : kbase_device where
  nr_regulators := 2
  regulators := [8192, 12288]
  num_pm_domains := 2
  pm_domain_devs := [0, 0, 0]
  current_freqs0 := 0
  current_voltages := [0, 0]
  platform_context := none
  devfreq_ops_installed := false

/-- A device torn down after use: as `kbdev_fresh`, but 400 MHz is still
recorded as the current frequency. -/
def kbdev_used : kbase_device := { kbdev_fresh with current_freqs0 := 400000000 }

/-- Constants used in the concrete examples. -/
def cfg0 : Config where
  GPU_CORE_NUM := 2
  BUS_IDLE_BIT := 4
  GPU_FREQ_KHZ_MAX := 880000
  VGPU_MAX_VOLT := 800000
  VSRAM_GPU_MAX_VOLT := 800000
  VSRAM_GPU_MIN_VOLT := 750000
  MIN_VOLT_BIAS := 0
  MAX_VOLT_BIAS := 250000
  VOLT_TOL := 125

/-- The platform context of the examples, powered as given. -/
def mfg0 (powered : Bool) : mfg_base where
  num_clks := 4
  clks := 131072
  g_mfg_base := 262144
  is_powered := powered

/-- A device with two regulators and two domains, powered as given. -/
def kbdev0 (powered : Bool) : kbase_device where
  nr_regulators := 2
  regulators := [8192, 12288]
  num_pm_domains := 2
  pm_domain_devs := [4096, 8192, 0]
  current_freqs0 := 0
  current_voltages := [0, 0]
  platform_context := some (mfg0 powered)
  devfreq_ops_installed := false

/-! ## Lemmas on the loops -/

theorem enable_loop_ok (call : Nat → Call) (res : Nat → Int) (n i0 : Nat)
    (h : ∀ i, i < n → 0 ≤ res (i0 + i)) :
    enable_loop call res n i0
      = ((List.range n).map (fun i => (⟨call (i0 + i), res (i0 + i)⟩ : Event)), none) := by
  induction n generalizing i0 with
  | zero => simp [enable_loop]
  | succ n ih =>
    have h0 : ¬ res i0 < 0 := by simpa using h 0 (Nat.succ_pos n)
    have ih1 := ih (i0 + 1) (fun i hi => by
      have := h (i + 1) (Nat.succ_lt_succ hi)
      simpa [Nat.add_assoc, Nat.add_comm 1 i] using this)
    simp only [enable_loop, h0, if_false, ih1, List.range_succ_eq_map, List.map_cons,
      List.map_map, Nat.add_zero]
    congr 2
    apply List.map_congr_left
    intro i _
    simp [Nat.add_assoc, Nat.add_comm 1 i]

theorem enable_loop_fail (call : Nat → Call) (res : Nat → Int) (n i0 j : Nat)
    (hj : j < n) (hneg : res (i0 + j) < 0) (h : ∀ i, i < j → 0 ≤ res (i0 + i)) :
    enable_loop call res n i0
      = ((List.range (j + 1)).map (fun i => (⟨call (i0 + i), res (i0 + i)⟩ : Event)),
          some (res (i0 + j))) := by
  induction j generalizing n i0 with
  | zero =>
    obtain ⟨m, rfl⟩ : ∃ m, n = m + 1 := ⟨n - 1, by omega⟩
    have hneg0 : res i0 < 0 := by simpa using hneg
    simp [enable_loop, hneg0, List.range_succ]
  | succ j ih =>
    obtain ⟨m, rfl⟩ : ∃ m, n = m + 1 := ⟨n - 1, by omega⟩
    have h0 : ¬ res i0 < 0 := by simpa using h 0 (Nat.succ_pos j)
    have ih1 := ih m (i0 + 1) (by omega)
      (by simpa [Nat.add_assoc, Nat.add_comm 1 j] using hneg)
      (fun i hi => by
        have := h (i + 1) (Nat.succ_lt_succ hi)
        simpa [Nat.add_assoc, Nat.add_comm 1 i] using this)
    rw [List.range_succ_eq_map]
    simp only [enable_loop, h0, if_false, ih1, List.map_cons, List.map_map, Nat.add_zero]
    congr 2
    · congr 1
      funext i
      simp [Nat.add_assoc, Nat.add_comm 1 i]
    · simp [Nat.add_assoc, Nat.add_comm 1 j]

theorem enable_loop_ok_zero (call : Nat → Call) (res : Nat → Int) (n : Nat)
    (h : ∀ i, i < n → 0 ≤ res i) :
    enable_loop call res n 0 = (calls_in_order call res n, none) := by
  have := enable_loop_ok call res n 0 (by simpa using h)
  simpa [calls_in_order] using this

theorem enable_loop_fail_zero (call : Nat → Call) (res : Nat → Int) (n j : Nat)
    (hj : j < n) (hneg : res j < 0) (h : ∀ i, i < j → 0 ≤ res i) :
    enable_loop call res n 0 = (calls_in_order call res (j + 1), some (res j)) := by
  have := enable_loop_fail call res n 0 j hj (by simpa using hneg) (by simpa using h)
  simpa [calls_in_order] using this

theorem put_autosuspend_loop_eq (hw : HW) (n : Nat) :
    put_autosuspend_loop hw n = domain_release_calls hw n := by
  induction n with
  | zero => simp [put_autosuspend_loop, domain_release_calls]
  | succ n ih =>
    simp only [put_autosuspend_loop, ih, domain_release_calls, List.range_succ,
      List.reverse_append, List.reverse_singleton, List.singleton_append, List.flatMap_cons,
      List.cons_append, List.nil_append]

theorem regulator_disable_loop_eq (hw : HW) (n : Nat) :
    regulator_disable_loop hw n = regulator_disable_calls hw n := by
  induction n with
  | zero => simp [regulator_disable_loop, regulator_disable_calls]
  | succ n ih =>
    simp only [regulator_disable_loop, ih, regulator_disable_calls, List.range_succ,
      List.reverse_append, List.reverse_singleton, List.singleton_append, List.map_cons]

theorem poll_bus_idle_done (cfg : Config) (hw : HW) (k fuel n0 : Nat) (hfuel : k < fuel)
    (hidle : reads_idle cfg hw (n0 + k) = true)
    (hbusy : ∀ i, i < k → reads_idle cfg hw (n0 + i) = false) :
    poll_bus_idle cfg hw fuel n0
      = ((List.range (k + 1)).map (fun i =>
          (⟨.readl .MFG_DEBUG_TOP,
            ((hw.readl_MFG_DEBUG_TOP (n0 + i) % 2 ^ 32 : Nat) : Int)⟩ : Event)), true) := by
  induction k generalizing fuel n0 with
  | zero =>
    obtain ⟨f, rfl⟩ : ∃ f, fuel = f + 1 := ⟨fuel - 1, by omega⟩
    have h0 := hidle
    simp only [reads_idle, Nat.add_zero, decide_eq_true_eq] at h0
    simp only [poll_bus_idle, ne_eq, h0, not_true_eq_false, if_false, List.range_succ,
      List.range_zero, List.nil_append, List.map_cons, List.map_nil, Nat.add_zero]
  | succ k ih =>
    obtain ⟨f, rfl⟩ : ∃ f, fuel = f + 1 := ⟨fuel - 1, by omega⟩
    have h0 := hbusy 0 (Nat.succ_pos k)
    simp only [reads_idle, Nat.add_zero, decide_eq_false_iff_not] at h0
    have ih1 := ih f (n0 + 1) (by omega)
      (by simpa [Nat.add_assoc, Nat.add_comm 1 k] using hidle)
      (fun i hi => by
        have := hbusy (i + 1) (Nat.succ_lt_succ hi)
        simpa [Nat.add_assoc, Nat.add_comm 1 i] using this)
    rw [List.range_succ_eq_map]
    simp only [poll_bus_idle, ne_eq, h0, not_false_eq_true, if_true, ih1,
      List.map_cons, List.map_map, Nat.add_zero]
    refine Prod.ext (congrArg (List.cons _) (List.map_congr_left ?_)) rfl
    intro i _
    simp [Nat.add_assoc, Nat.add_comm 1 i]

theorem poll_bus_idle_busy (cfg : Config) (hw : HW) (fuel n0 : Nat)
    (h : ∀ i, i < fuel → reads_idle cfg hw (n0 + i) = false) :
    poll_bus_idle cfg hw fuel n0
      = ((List.range fuel).map (fun i =>
          (⟨.readl .MFG_DEBUG_TOP,
            ((hw.readl_MFG_DEBUG_TOP (n0 + i) % 2 ^ 32 : Nat) : Int)⟩ : Event)), false) := by
  induction fuel generalizing n0 with
  | zero => rfl
  | succ f ih =>
    have h0 := h 0 (Nat.succ_pos f)
    simp only [reads_idle, Nat.add_zero, decide_eq_false_iff_not] at h0
    have ih1 := ih (n0 + 1) (fun i hi => by
      have := h (i + 1) (Nat.succ_lt_succ hi)
      simpa [Nat.add_assoc, Nat.add_comm 1 i] using this)
    rw [List.range_succ_eq_map]
    simp only [poll_bus_idle, ne_eq, h0, not_false_eq_true, if_true, ih1,
      List.map_cons, List.map_map, Nat.add_zero]
    refine Prod.ext (congrArg (List.cons _) (List.map_congr_left ?_)) rfl
    intro i _
    simp [Nat.add_assoc, Nat.add_comm 1 i]

/-! ## Power-on -/

/-- C1: `pm_callback_power_on` started with `is_powered = false`, for every
number of regulators and domains and every assignment of results: it enables
regulators `0..N-1` in order, then resumes domains `0..M-1` in order, then
issues one bulk clock enable, and stops at the first negative result.  When a
call fails it returns that error, has issued nothing after the failing call (in
particular no disable or put), and leaves the state, with `is_powered = false`,
unchanged; when none fails it returns `1` and sets `is_powered = true`. -/
theorem power_on_sequence (hw : HW) (kbdev : kbase_device) (mfg : mfg_base)
    (hctx : kbdev.platform_context = some mfg) (hoff : mfg.is_powered = false) :
    (∀ j, j < kbdev.nr_regulators → hw.regulator_enable j < 0 →
        (∀ i, i < j → 0 ≤ hw.regulator_enable i) →
        pm_callback_power_on hw kbdev
          = .ret (kbdev, calls_in_order .regulator_enable hw.regulator_enable (j + 1),
              hw.regulator_enable j)) ∧
    (∀ j, (∀ i, i < kbdev.nr_regulators → 0 ≤ hw.regulator_enable i) →
        j < kbdev.num_pm_domains.toNat → hw.pm_runtime_get_sync j < 0 →
        (∀ i, i < j → 0 ≤ hw.pm_runtime_get_sync i) →
        pm_callback_power_on hw kbdev
          = .ret (kbdev,
              calls_in_order .regulator_enable hw.regulator_enable kbdev.nr_regulators
                ++ calls_in_order .pm_runtime_get_sync hw.pm_runtime_get_sync (j + 1),
              hw.pm_runtime_get_sync j)) ∧
    ((∀ i, i < kbdev.nr_regulators → 0 ≤ hw.regulator_enable i) →
        (∀ i, i < kbdev.num_pm_domains.toNat → 0 ≤ hw.pm_runtime_get_sync i) →
        hw.clk_bulk_prepare_enable < 0 →
        pm_callback_power_on hw kbdev
          = .ret (kbdev,
              calls_in_order .regulator_enable hw.regulator_enable kbdev.nr_regulators
                ++ calls_in_order .pm_runtime_get_sync hw.pm_runtime_get_sync
                    kbdev.num_pm_domains.toNat
                ++ [⟨.clk_bulk_prepare_enable mfg.num_clks, hw.clk_bulk_prepare_enable⟩],
              hw.clk_bulk_prepare_enable)) ∧
    ((∀ i, i < kbdev.nr_regulators → 0 ≤ hw.regulator_enable i) →
        (∀ i, i < kbdev.num_pm_domains.toNat → 0 ≤ hw.pm_runtime_get_sync i) →
        0 ≤ hw.clk_bulk_prepare_enable →
        pm_callback_power_on hw kbdev
          = .ret ({ kbdev with platform_context := some { mfg with is_powered := true } },
              calls_in_order .regulator_enable hw.regulator_enable kbdev.nr_regulators
                ++ calls_in_order .pm_runtime_get_sync hw.pm_runtime_get_sync
                    kbdev.num_pm_domains.toNat
                ++ [⟨.clk_bulk_prepare_enable mfg.num_clks, hw.clk_bulk_prepare_enable⟩],
              1)) := by
  refine ⟨?_, ?_, ?_, ?_⟩
  · intro j hj hneg hok
    simp [pm_callback_power_on, hctx, hoff,
      enable_loop_fail_zero _ _ _ j hj hneg hok]
  · intro j hregs hj hneg hok
    simp [pm_callback_power_on, hctx, hoff, enable_loop_ok_zero _ _ _ hregs,
      enable_loop_fail_zero _ _ _ j hj hneg hok]
  · intro hregs hdoms hclk
    simp [pm_callback_power_on, hctx, hoff, enable_loop_ok_zero _ _ _ hregs,
      enable_loop_ok_zero _ _ _ hdoms, hclk]
  · intro hregs hdoms hclk
    simp [pm_callback_power_on, hctx, hoff, enable_loop_ok_zero _ _ _ hregs,
      enable_loop_ok_zero _ _ _ hdoms, not_lt.mpr hclk]

/-- Witness of C1: two regulators, two domains, the second domain fails to
resume with `-5`. -/
theorem power_on_sequence_witness :
    pm_callback_power_on
        { hw_ok with pm_runtime_get_sync := fun i => if i = 1 then -5 else 0 } (kbdev0 false)
      = .ret (kbdev0 false,
          [⟨.regulator_enable 0, 0⟩, ⟨.regulator_enable 1, 0⟩,
           ⟨.pm_runtime_get_sync 0, 0⟩, ⟨.pm_runtime_get_sync 1, -5⟩], -5) :=
  (power_on_sequence { hw_ok with pm_runtime_get_sync := fun i => if i = 1 then -5 else 0 }
      (kbdev0 false) (mfg0 false) rfl rfl).2.1 1
    (by intro i _; simp [hw_ok]) (by decide) (by decide)
    (by intro i hi; have : i = 0 := by omega
        subst this; decide)

/-- The errors of the fail-fast loop are negative. -/
theorem enable_loop_error_neg (call : Nat → Call) (res : Nat → Int) (n i0 : Nat)
    (evs : List Event) (error : Int)
    (h : enable_loop call res n i0 = (evs, some error)) : error < 0 := by
  induction n generalizing i0 evs with
  | zero => simp [enable_loop] at h
  | succ n ih =>
    simp only [enable_loop] at h
    split at h
    · next hneg =>
      simp only [Prod.mk.injEq, Option.some.injEq] at h
      exact h.2 ▸ hneg
    · simp only [Prod.mk.injEq] at h
      exact ih (i0 + 1) _ (Prod.ext rfl h.2)

/-- C3, as the code has it: when the first of two consecutive
`pm_callback_power_on` calls does not fail (it returns `1` or `0`), the second
one, whatever the hardware would answer, issues no call at all, returns `0` and
leaves the state as it is; the hardware side effects happened once at most. -/
theorem power_on_twice (hw1 hw2 : HW) (kbdev s1 : kbase_device) (ev1 : List Event) (r1 : Int)
    (h1 : pm_callback_power_on hw1 kbdev = .ret (s1, ev1, r1)) (hr : 0 ≤ r1) :
    pm_callback_power_on hw2 s1 = .ret (s1, [], 0) := by
  unfold pm_callback_power_on at h1
  split at h1
  · exact absurd h1 (by simp)
  · next mfg hctx =>
    split at h1
    · next hon =>
      simp only [Run.ret.injEq, Prod.mk.injEq] at h1
      obtain ⟨rfl, -, -⟩ := h1
      simp [pm_callback_power_on, hctx, hon]
    · split at h1
      · next evs error hloop =>
        simp only [Run.ret.injEq, Prod.mk.injEq] at h1
        have := enable_loop_error_neg _ _ _ _ _ _ hloop
        omega
      · split at h1
        · next evs error hloop =>
          simp only [Run.ret.injEq, Prod.mk.injEq] at h1
          have := enable_loop_error_neg _ _ _ _ _ _ hloop
          omega
        · simp only at h1
          split at h1
          · next hneg =>
            simp only [Run.ret.injEq, Prod.mk.injEq] at h1
            omega
          · simp only [Run.ret.injEq, Prod.mk.injEq] at h1
            obtain ⟨rfl, -, -⟩ := h1
            simp [pm_callback_power_on]

/-- Witness of C3: the first call powers the device on, the second is a no-op. -/
theorem power_on_twice_witness :
    pm_callback_power_on hw_ok (kbdev0 true) = .ret (kbdev0 true, [], 0) :=
  power_on_twice hw_ok hw_ok (kbdev0 false) (kbdev0 true)
    [⟨.regulator_enable 0, 0⟩, ⟨.regulator_enable 1, 0⟩,
     ⟨.pm_runtime_get_sync 0, 0⟩, ⟨.pm_runtime_get_sync 1, 0⟩,
     ⟨.clk_bulk_prepare_enable 4, 0⟩] 1 (by decide) (by decide)

/-- Counterexample to C3 as stated: the bulk clock enable of the first call
fails with `-5`, so `is_powered` stays false; the second call, made right after
it, enables both regulators and resumes both domains a second time and returns
`1`, not `0`. -/
theorem power_on_twice_after_failure :
    pm_callback_power_on { hw_ok with clk_bulk_prepare_enable := -5 } (kbdev0 false)
        = .ret (kbdev0 false,
            [⟨.regulator_enable 0, 0⟩, ⟨.regulator_enable 1, 0⟩,
             ⟨.pm_runtime_get_sync 0, 0⟩, ⟨.pm_runtime_get_sync 1, 0⟩,
             ⟨.clk_bulk_prepare_enable 4, -5⟩], -5) ∧
    pm_callback_power_on hw_ok (kbdev0 false)
        = .ret (kbdev0 true,
            [⟨.regulator_enable 0, 0⟩, ⟨.regulator_enable 1, 0⟩,
             ⟨.pm_runtime_get_sync 0, 0⟩, ⟨.pm_runtime_get_sync 1, 0⟩,
             ⟨.clk_bulk_prepare_enable 4, 0⟩], 1) := by
  constructor <;> decide

/-! ## Power-off -/

/-- C2, as the code has it: `pm_callback_power_off` started with
`is_powered = true`, for every number of regulators and domains and every
assignment of results to the release calls.  When the poll of the idle gate
ends (read number `n` of the status register is the first to show the idle
bit), it returns, having issued exactly the idle gate (two register writes and
reads `0..n`), one bulk clock disable, for each domain `M-1..0` a
mark-last-busy followed by a put-autosuspend, then `regulator_disable` on
regulators `N-1..0`, and `is_powered` is false.  As long as no read has shown
the idle bit (for ever, when the register never shows it), it is still in the
idle gate: `is_powered` is already false and the calls issued are the two
register writes and the reads, nothing else: no clock disable, no release. -/
theorem power_off_sequence (cfg : Config) (hw : HW) (kbdev : kbase_device) (mfg : mfg_base)
    (hctx : kbdev.platform_context = some mfg) (hon : mfg.is_powered = true) :
    (∀ n fuel, reads_idle cfg hw n = true → (∀ i, i < n → reads_idle cfg hw i = false) →
      n < fuel →
      pm_callback_power_off cfg hw fuel kbdev
        = .ret ({ kbdev with platform_context := some { mfg with is_powered := false } },
            idle_gate_calls hw n
              ++ [⟨.clk_bulk_disable_unprepare mfg.num_clks, 0⟩]
              ++ domain_release_calls hw kbdev.num_pm_domains.toNat
              ++ regulator_disable_calls hw kbdev.nr_regulators)) ∧
    (∀ fuel, (∀ i, i < fuel → reads_idle cfg hw i = false) →
      pm_callback_power_off cfg hw fuel kbdev
        = .spin ({ kbdev with platform_context := some { mfg with is_powered := false } },
            idle_gate_polling hw fuel)) ∧
    (∀ fuel e, e ∈ idle_gate_polling hw fuel →
      e.call = .writel 1 .MFG_QCHANNEL_CON ∨ e.call = .writel 3 .MFG_DEBUG_SEL
        ∨ e.call = .readl .MFG_DEBUG_TOP) := by
  refine ⟨?_, ?_, ?_⟩
  · intro n fuel hidle hbusy hfuel
    have hpoll := poll_bus_idle_done cfg hw n fuel 0 hfuel (by simpa using hidle)
      (by simpa using hbusy)
    simp only [Nat.zero_add] at hpoll
    simp [pm_callback_power_off, hctx, hon, check_bus_idle, hpoll, idle_gate_calls,
      put_autosuspend_loop_eq, regulator_disable_loop_eq]
  · intro fuel hbusy
    have hpoll := poll_bus_idle_busy cfg hw fuel 0 (by simpa using hbusy)
    simp only [Nat.zero_add] at hpoll
    simp [pm_callback_power_off, hctx, hon, check_bus_idle, hpoll, idle_gate_polling]
  · intro fuel e he
    simp only [idle_gate_polling, List.mem_cons, List.mem_map] at he
    rcases he with rfl | rfl | ⟨i, _, rfl⟩
    · exact Or.inl rfl
    · exact Or.inr (Or.inl rfl)
    · exact Or.inr (Or.inr rfl)

/-- Witness of C2: the bus is busy at the first poll and idle at the second, the
release of domain 1 and the disable of regulator 1 fail. -/
theorem power_off_sequence_witness :
    pm_callback_power_off cfg0
        { hw_ok with
          readl_MFG_DEBUG_TOP := fun i => if i = 0 then 0 else 4
          pm_runtime_put_autosuspend := fun i => if i = 1 then -16 else 0
          regulator_disable := fun i => if i = 1 then -5 else 0 } 2 (kbdev0 true)
      = .ret (kbdev0 false,
          [⟨.writel 1 .MFG_QCHANNEL_CON, 0⟩, ⟨.writel 3 .MFG_DEBUG_SEL, 0⟩,
           ⟨.readl .MFG_DEBUG_TOP, 0⟩, ⟨.readl .MFG_DEBUG_TOP, 4⟩,
           ⟨.clk_bulk_disable_unprepare 4, 0⟩,
           ⟨.pm_runtime_mark_last_busy 1, 0⟩, ⟨.pm_runtime_put_autosuspend 1, -16⟩,
           ⟨.pm_runtime_mark_last_busy 0, 0⟩, ⟨.pm_runtime_put_autosuspend 0, 0⟩,
           ⟨.regulator_disable 1, -5⟩, ⟨.regulator_disable 0, 0⟩]) :=
  (power_off_sequence cfg0
    { hw_ok with
      readl_MFG_DEBUG_TOP := fun i => if i = 0 then 0 else 4
      pm_runtime_put_autosuspend := fun i => if i = 1 then -16 else 0
      regulator_disable := fun i => if i = 1 then -5 else 0 }
    (kbdev0 true) (mfg0 true) rfl rfl).1 1 2 (by decide)
    (by intro i hi; have : i = 0 := by omega
        subst this; decide)
    (by decide)

/-- Counterexample to C2 as stated: the status register never shows the idle
bit.  Whatever the fuel, `pm_callback_power_off` is still inside the idle gate,
with `is_powered` already false: it has issued the two register writes and the
reads only, neither the clock disable nor any release call, and has not
returned. -/
theorem power_off_stuck_bus :
    ¬ ∃ fuel, pm_callback_power_off cfg0 hw_stuck fuel (kbdev0 true)
        ≠ .spin (kbdev0 false,
            ⟨.writel 1 .MFG_QCHANNEL_CON, 0⟩ :: ⟨.writel 3 .MFG_DEBUG_SEL, 0⟩ ::
              List.replicate fuel ⟨.readl .MFG_DEBUG_TOP, 0⟩) := by
  rintro ⟨fuel, h⟩
  apply h
  have hpoll := poll_bus_idle_busy cfg0 hw_stuck fuel 0
    (fun i _ => by simp [reads_idle, hw_stuck, cfg0])
  have hrep : ∀ m : Nat, (List.range m).map (fun _ => (⟨.readl .MFG_DEBUG_TOP, 0⟩ : Event))
      = List.replicate m ⟨.readl .MFG_DEBUG_TOP, 0⟩ := by
    intro m
    induction m with
    | zero => rfl
    | succ m ih => rw [List.range_succ, List.map_append, ih, List.replicate_succ']; rfl
  simp only [hw_stuck, Nat.zero_mod, Nat.cast_zero] at hpoll
  simp [pm_callback_power_off, kbdev0, mfg0, check_bus_idle, hw_stuck, hpoll, hrep]

/-! ## Frequency change -/

/-- A `set_frequency` to a new target that returns `0` issued the three clock
calls, all successful, and recorded the target. -/
theorem set_frequency_success (hw : HW) (kbdev s : kbase_device) (f : Nat) (evs : List Event)
    (hne : kbdev.current_freqs0 ≠ f) (h : set_frequency hw kbdev f = .ret (s, evs, 0)) :
    evs = [⟨.clk_set_parent .mux .sub, 0⟩, ⟨.clk_set_rate .main f, 0⟩,
           ⟨.clk_set_parent .mux .main, 0⟩] ∧
    s = { kbdev with current_freqs0 := f } := by
  unfold set_frequency at h
  rw [if_pos hne] at h
  split at h
  · exact absurd h (by simp)
  · simp only at h
    split at h
    · next h1 =>
      simp only [Run.ret.injEq, Prod.mk.injEq] at h
      exact absurd h.2.2 h1
    · next h1 =>
      split at h
      · next h2 =>
        simp only [Run.ret.injEq, Prod.mk.injEq] at h
        exact absurd h.2.2 h2
      · next h2 =>
        split at h
        · next h3 =>
          simp only [Run.ret.injEq, Prod.mk.injEq] at h
          exact absurd h.2.2 h3
        · next h3 =>
          simp only [ne_eq, not_not] at h1 h2 h3
          simp only [Run.ret.injEq, Prod.mk.injEq, h1, h2, h3] at h
          exact ⟨h.2.1.symm, h.1.symm⟩

/-- C4: a `set_frequency(f)` to a target other than the recorded frequency that
returns `0` issued exactly: mux to sub, main rate to `f`, mux to main, and the
recorded frequency is `f` afterwards.  So two successful changes in a row
(`f1 ≠ f2`) issue sub, rate `f1`, main, sub, rate `f2`, main: a selection of
sub lies between the two selections of main, every rate change happens while
the mux selects sub, and the mux selects main at the end. -/
theorem set_frequency_glitch_free (hw1 hw2 : HW) (kbdev s1 s2 : kbase_device) (f1 f2 : Nat)
    (ev1 ev2 : List Event) (p0 : gpu_clk_idx)
    (hne1 : kbdev.current_freqs0 ≠ f1) (hne2 : f1 ≠ f2)
    (h1 : set_frequency hw1 kbdev f1 = .ret (s1, ev1, 0))
    (h2 : set_frequency hw2 s1 f2 = .ret (s2, ev2, 0)) :
    ev1 = [⟨.clk_set_parent .mux .sub, 0⟩, ⟨.clk_set_rate .main f1, 0⟩,
           ⟨.clk_set_parent .mux .main, 0⟩] ∧
    s1.current_freqs0 = f1 ∧
    ev2 = [⟨.clk_set_parent .mux .sub, 0⟩, ⟨.clk_set_rate .main f2, 0⟩,
           ⟨.clk_set_parent .mux .main, 0⟩] ∧
    s2.current_freqs0 = f2 ∧
    rate_set_while_parked p0 (ev1 ++ ev2) = true ∧
    mux_parent_after p0 ev1 = .main ∧
    mux_parent_after p0 (ev1 ++ ev2.take 1) = .sub ∧
    mux_parent_after p0 (ev1 ++ ev2) = .main := by
  obtain ⟨e1, rfl⟩ := set_frequency_success hw1 kbdev s1 f1 ev1 hne1 h1
  obtain ⟨e2, rfl⟩ := set_frequency_success hw2 _ s2 f2 ev2 (by simpa using hne2) h2
  subst e1 e2
  refine ⟨rfl, rfl, rfl, rfl, ?_, ?_, ?_, ?_⟩ <;>
    simp [rate_set_while_parked, mux_parent_after]

/-- Witness of C4: 400 MHz, then 800 MHz, from a recorded frequency of 0. -/
theorem set_frequency_glitch_free_witness :
    [(⟨.clk_set_parent .mux .sub, 0⟩ : Event), ⟨.clk_set_rate .main 400000000, 0⟩,
        ⟨.clk_set_parent .mux .main, 0⟩]
      = [⟨.clk_set_parent .mux .sub, 0⟩, ⟨.clk_set_rate .main 400000000, 0⟩,
         ⟨.clk_set_parent .mux .main, 0⟩] ∧
    ({ kbdev0 true with current_freqs0 := 400000000 } : kbase_device).current_freqs0
      = 400000000 ∧
    [(⟨.clk_set_parent .mux .sub, 0⟩ : Event), ⟨.clk_set_rate .main 800000000, 0⟩,
        ⟨.clk_set_parent .mux .main, 0⟩]
      = [⟨.clk_set_parent .mux .sub, 0⟩, ⟨.clk_set_rate .main 800000000, 0⟩,
         ⟨.clk_set_parent .mux .main, 0⟩] ∧
    ({ kbdev0 true with current_freqs0 := 800000000 } : kbase_device).current_freqs0
      = 800000000 ∧
    rate_set_while_parked .main
      ([⟨.clk_set_parent .mux .sub, 0⟩, ⟨.clk_set_rate .main 400000000, 0⟩,
        ⟨.clk_set_parent .mux .main, 0⟩]
        ++ [⟨.clk_set_parent .mux .sub, 0⟩, ⟨.clk_set_rate .main 800000000, 0⟩,
            ⟨.clk_set_parent .mux .main, 0⟩]) = true ∧
    mux_parent_after .main
      [⟨.clk_set_parent .mux .sub, 0⟩, ⟨.clk_set_rate .main 400000000, 0⟩,
       ⟨.clk_set_parent .mux .main, 0⟩] = .main ∧
    mux_parent_after .main
      ([⟨.clk_set_parent .mux .sub, 0⟩, ⟨.clk_set_rate .main 400000000, 0⟩,
        ⟨.clk_set_parent .mux .main, 0⟩]
        ++ [(⟨.clk_set_parent .mux .sub, 0⟩ : Event), ⟨.clk_set_rate .main 800000000, 0⟩,
            ⟨.clk_set_parent .mux .main, 0⟩].take 1) = .sub ∧
    mux_parent_after .main
      ([⟨.clk_set_parent .mux .sub, 0⟩, ⟨.clk_set_rate .main 400000000, 0⟩,
        ⟨.clk_set_parent .mux .main, 0⟩]
        ++ [⟨.clk_set_parent .mux .sub, 0⟩, ⟨.clk_set_rate .main 800000000, 0⟩,
            ⟨.clk_set_parent .mux .main, 0⟩]) = .main :=
  set_frequency_glitch_free hw_ok hw_ok (kbdev0 true)
    { kbdev0 true with current_freqs0 := 400000000 }
    { kbdev0 true with current_freqs0 := 800000000 } 400000000 800000000 _ _ .main
    (by decide) (by decide) (by decide) (by decide)

/-- C5: `set_frequency(f)` with `f` other than the recorded frequency stops at
the first call that returns non-zero and returns that value.  Selecting sub
fails: nothing else is issued, the record is unchanged.  The rate change fails:
nothing else is issued, the mux was last set to sub, the record is unchanged.
Re-selecting main fails: the mux was last set to sub and the record is `f`.
Whatever happens, the record becomes `f` exactly when the rate-set call was
issued and returned `0`, and is unchanged otherwise. -/
theorem set_frequency_abort (hw : HW) (kbdev : kbase_device) (mfg : mfg_base) (f : Nat)
    (p0 : gpu_clk_idx)
    (hctx : kbdev.platform_context = some mfg) (hne : kbdev.current_freqs0 ≠ f) :
    (hw.clk_set_parent .mux .sub ≠ 0 →
      set_frequency hw kbdev f
        = .ret (kbdev, [⟨.clk_set_parent .mux .sub, hw.clk_set_parent .mux .sub⟩],
            hw.clk_set_parent .mux .sub)) ∧
    (hw.clk_set_parent .mux .sub = 0 → hw.clk_set_rate .main f ≠ 0 →
      set_frequency hw kbdev f
        = .ret (kbdev,
            [⟨.clk_set_parent .mux .sub, 0⟩, ⟨.clk_set_rate .main f, hw.clk_set_rate .main f⟩],
            hw.clk_set_rate .main f) ∧
      mux_parent_after p0
        [⟨.clk_set_parent .mux .sub, 0⟩, ⟨.clk_set_rate .main f, hw.clk_set_rate .main f⟩]
        = .sub) ∧
    (hw.clk_set_parent .mux .sub = 0 → hw.clk_set_rate .main f = 0 →
      hw.clk_set_parent .mux .main ≠ 0 →
      set_frequency hw kbdev f
        = .ret ({ kbdev with current_freqs0 := f },
            [⟨.clk_set_parent .mux .sub, 0⟩, ⟨.clk_set_rate .main f, 0⟩,
             ⟨.clk_set_parent .mux .main, hw.clk_set_parent .mux .main⟩],
            hw.clk_set_parent .mux .main) ∧
      mux_parent_after p0
        [⟨.clk_set_parent .mux .sub, 0⟩, ⟨.clk_set_rate .main f, 0⟩,
         ⟨.clk_set_parent .mux .main, hw.clk_set_parent .mux .main⟩] = .sub) ∧
    (∃ s evs r, set_frequency hw kbdev f = .ret (s, evs, r) ∧
      (s.current_freqs0 = f ↔
        hw.clk_set_parent .mux .sub = 0 ∧ hw.clk_set_rate .main f = 0) ∧
      (s.current_freqs0 ≠ f → s = kbdev)) := by
  refine ⟨?_, ?_, ?_, ?_⟩
  · intro h1
    simp [set_frequency, hne, hctx, h1]
  · intro h1 h2
    simp [set_frequency, hne, hctx, h1, h2, mux_parent_after]
  · intro h1 h2 h3
    simp [set_frequency, hne, hctx, h1, h2, h3, mux_parent_after]
  · by_cases h1 : hw.clk_set_parent .mux .sub = 0
    · by_cases h2 : hw.clk_set_rate .main f = 0
      · refine ⟨{ kbdev with current_freqs0 := f },
          [⟨.clk_set_parent .mux .sub, 0⟩, ⟨.clk_set_rate .main f, 0⟩,
           ⟨.clk_set_parent .mux .main, hw.clk_set_parent .mux .main⟩],
          hw.clk_set_parent .mux .main, ?_, by simp [h1, h2], by simp⟩
        by_cases h3 : hw.clk_set_parent .mux .main = 0
        · simp [set_frequency, hne, hctx, h1, h2, h3]
        · simp [set_frequency, hne, hctx, h1, h2, h3]
      · exact ⟨kbdev,
          [⟨.clk_set_parent .mux .sub, 0⟩, ⟨.clk_set_rate .main f, hw.clk_set_rate .main f⟩],
          hw.clk_set_rate .main f, by simp [set_frequency, hne, hctx, h1, h2],
          by simp [h1, h2, hne], by simp⟩
    · exact ⟨kbdev, [⟨.clk_set_parent .mux .sub, hw.clk_set_parent .mux .sub⟩],
        hw.clk_set_parent .mux .sub, by simp [set_frequency, hne, hctx, h1],
        by simp [h1, hne], by simp⟩

/-- Witness of C5: the rate change to 800 MHz fails with `-22`. -/
theorem set_frequency_abort_witness :
    set_frequency { hw_ok with clk_set_rate := fun _ _ => -22 } (kbdev0 true) 800000000
        = .ret (kbdev0 true,
            [⟨.clk_set_parent .mux .sub, 0⟩, ⟨.clk_set_rate .main 800000000, -22⟩], -22) ∧
    mux_parent_after .main
        [⟨.clk_set_parent .mux .sub, 0⟩, ⟨.clk_set_rate .main 800000000, -22⟩] = .sub :=
  (set_frequency_abort { hw_ok with clk_set_rate := fun _ _ => -22 } (kbdev0 true)
    (mfg0 true) 800000000 .main rfl (by decide)).2.1 rfl (by decide)

/-- C10: when the recorded frequency already equals `f`, `set_frequency(f)`
issues no call, returns `0` and leaves the whole state unchanged, whatever the
state (even without a platform context); hence after a `set_frequency(f)` that
returned `0`, a second `set_frequency(f)` changes nothing and issues nothing. -/
theorem set_frequency_noop (hw hw2 : HW) (kbdev : kbase_device) (f : Nat) :
    (kbdev.current_freqs0 = f → set_frequency hw kbdev f = .ret (kbdev, [], 0)) ∧
    (∀ s1 ev1, set_frequency hw kbdev f = .ret (s1, ev1, 0) →
      set_frequency hw2 s1 f = .ret (s1, [], 0)) := by
  have key : ∀ (h : HW) (s : kbase_device), s.current_freqs0 = f →
      set_frequency h s f = .ret (s, [], 0) := by
    intro h s hs
    simp [set_frequency, hs]
  refine ⟨key hw kbdev, ?_⟩
  intro s1 ev1 h
  apply key
  by_cases hne : kbdev.current_freqs0 = f
  · rw [key hw kbdev hne] at h
    simp only [Run.ret.injEq, Prod.mk.injEq] at h
    rw [← h.1]
    exact hne
  · have := (set_frequency_success hw kbdev s1 f ev1 hne h).2
    rw [this]

/-- Witness of C10: a change to 800 MHz followed by the same request. -/
theorem set_frequency_noop_witness :
    set_frequency hw_ok { kbdev0 true with current_freqs0 := 800000000 } 800000000
      = .ret ({ kbdev0 true with current_freqs0 := 800000000 }, [], 0) :=
  (set_frequency_noop hw_ok hw_ok (kbdev0 true) 800000000).2
    { kbdev0 true with current_freqs0 := 800000000 }
    [⟨.clk_set_parent .mux .sub, 0⟩, ⟨.clk_set_rate .main 800000000, 0⟩,
     ⟨.clk_set_parent .mux .main, 0⟩] (by decide)

/-! ## Voltage range check -/

theorem clamp_t_eq_clamp (x lo hi : Nat) (h : lo ≤ hi) : clamp_t x lo hi = clamp x lo hi := by
  unfold clamp_t clamp
  split_ifs <;> omega

/-- C6: on unsigned long values `v0`, `v1`, `voltage_range_check` keeps `v0`
and replaces `v1` by `clamp(v0 + MIN_VOLT_BIAS, VSRAM_GPU_MIN_VOLT,
VSRAM_GPU_MAX_VOLT)` when the difference `v1 - v0`, taken modulo `2 ^ 64`, is
above `MAX_VOLT_BIAS` or below `MIN_VOLT_BIAS`, and by `clamp(v1, ...)`
otherwise; difference and sum are unsigned long operations, the sum is the
exact one whenever `v0 + MIN_VOLT_BIAS < 2 ^ 64`, and the difference is the
exact one whenever `v0 ≤ v1`.  For `v0 = 800000`, `v1 = 2000000`,
`MAX_VOLT_BIAS = 250000` the result is `clamp(800000 + MIN_VOLT_BIAS, ...)`. -/
theorem voltage_range_check_spec (cfg : Config) (v0 v1 : Nat)
    (hv0 : v0 < 2 ^ 64) (hv1 : v1 < 2 ^ 64)
    (hbias : cfg.MIN_VOLT_BIAS ≤ cfg.MAX_VOLT_BIAS)
    (hsram : cfg.VSRAM_GPU_MIN_VOLT ≤ cfg.VSRAM_GPU_MAX_VOLT) :
    voltage_range_check cfg (v0, v1)
      = (v0,
          if (v1 + 2 ^ 64 - v0) % 2 ^ 64 > cfg.MAX_VOLT_BIAS
              ∨ (v1 + 2 ^ 64 - v0) % 2 ^ 64 < cfg.MIN_VOLT_BIAS then
            clamp ((v0 + cfg.MIN_VOLT_BIAS) % 2 ^ 64) cfg.VSRAM_GPU_MIN_VOLT
              cfg.VSRAM_GPU_MAX_VOLT
          else clamp v1 cfg.VSRAM_GPU_MIN_VOLT cfg.VSRAM_GPU_MAX_VOLT) ∧
    (v0 + cfg.MIN_VOLT_BIAS < 2 ^ 64 →
      (v0 + cfg.MIN_VOLT_BIAS) % 2 ^ 64 = v0 + cfg.MIN_VOLT_BIAS) ∧
    (v0 ≤ v1 → (v1 + 2 ^ 64 - v0) % 2 ^ 64 = v1 - v0) ∧
    (v1 < v0 → (v1 + 2 ^ 64 - v0) % 2 ^ 64 = 2 ^ 64 - (v0 - v1)) ∧
    (v0 = 800000 → v1 = 2000000 → cfg.MAX_VOLT_BIAS = 250000 →
      voltage_range_check cfg (v0, v1)
        = (800000, clamp (800000 + cfg.MIN_VOLT_BIAS) cfg.VSRAM_GPU_MIN_VOLT
            cfg.VSRAM_GPU_MAX_VOLT)) := by
  have hmain : voltage_range_check cfg (v0, v1)
      = (v0,
          if (v1 + 2 ^ 64 - v0) % 2 ^ 64 > cfg.MAX_VOLT_BIAS
              ∨ (v1 + 2 ^ 64 - v0) % 2 ^ 64 < cfg.MIN_VOLT_BIAS then
            clamp ((v0 + cfg.MIN_VOLT_BIAS) % 2 ^ 64) cfg.VSRAM_GPU_MIN_VOLT
              cfg.VSRAM_GPU_MAX_VOLT
          else clamp v1 cfg.VSRAM_GPU_MIN_VOLT cfg.VSRAM_GPU_MAX_VOLT) := by
    simp only [voltage_range_check, clamp_t_eq_clamp _ _ _ hsram]
    by_cases hc : (v1 + 2 ^ 64 - v0) % 2 ^ 64 < cfg.MIN_VOLT_BIAS
        ∨ (v1 + 2 ^ 64 - v0) % 2 ^ 64 > cfg.MAX_VOLT_BIAS
    · rw [if_pos hc, if_pos hc.symm]
    · rw [if_neg hc, if_neg (fun h => hc h.symm)]
  refine ⟨hmain, ?_, ?_, ?_, ?_⟩
  · intro h
    exact Nat.mod_eq_of_lt h
  · intro h
    omega
  · intro h
    omega
  · rintro rfl rfl hmax
    rw [hmain]
    have hd : (2000000 + 2 ^ 64 - 800000) % 2 ^ 64 = 1200000 := by norm_num
    have hs : (800000 + cfg.MIN_VOLT_BIAS) % 2 ^ 64 = 800000 + cfg.MIN_VOLT_BIAS :=
      Nat.mod_eq_of_lt (by omega)
    rw [hd, hs, if_pos (Or.inl (by omega))]

/-- Witness of C6: `v0 = 800000`, `v1 = 2000000` with the example constants. -/
theorem voltage_range_check_spec_witness :
    voltage_range_check cfg0 (800000, 2000000)
      = (800000, clamp (800000 + cfg0.MIN_VOLT_BIAS) cfg0.VSRAM_GPU_MIN_VOLT
          cfg0.VSRAM_GPU_MAX_VOLT) :=
  (voltage_range_check_spec cfg0 800000 2000000 (by norm_num) (by norm_num) (by decide)
    (by decide)).2.2.2.2 rfl rfl rfl

/-! ## Power-domain discovery: rollback of a failed attach -/

theorem set_at_length (A rest : List Nat) (x y : Nat) :
    (A ++ x :: rest).set A.length y = A ++ y :: rest := by
  induction A with
  | nil => rfl
  | cons a A ih => simp [List.set, ih]

/-- The error code computed from a failed attach. -/
theorem attach_error_eq (p : Nat) (hp : p < 2 ^ 64) (h : IS_ERR_OR_NULL p = true) :
    to_int (if PTR_ERR p ≠ 0 then PTR_ERR p else -ENODATA)
        = (if p = 0 then -ENODATA else (p : Int) - 2 ^ 64) ∧
    (if p = 0 then -ENODATA else (p : Int) - 2 ^ 64) < 0 := by
  simp only [IS_ERR_OR_NULL, IS_ERR_VALUE, MAX_ERRNO, Bool.or_eq_true, beq_iff_eq,
    decide_eq_true_eq] at h
  by_cases h0 : p = 0
  · subst h0
    simp [PTR_ERR, ENODATA, to_int]
  · have h1 : 2 ^ 64 - 4095 ≤ p := by
      rcases h with h | h
      · exact absurd h h0
      · exact h
    have h2 : ¬ p < 2 ^ 63 := by omega
    have h3 : (p : Int) - 2 ^ 64 ≠ 0 := by omega
    simp only [PTR_ERR, h2, if_false, ne_eq, h3, not_false_eq_true, if_true, h0, to_int]
    constructor <;> omega

theorem attach_loop_fail (hw : HW) (j n i m : Nat) (A : List Nat) (hA : A.length = i)
    (hj : j < n) (hm : j < m)
    (hok : ∀ t, t < j → IS_ERR_OR_NULL (attached_ptr hw (i + t)) = false)
    (hfail : IS_ERR_OR_NULL (attached_ptr hw (i + j)) = true) :
    attach_loop hw n i (A ++ List.replicate m 0)
      = (A ++ (List.range j).map (fun t => attached_ptr hw (i + t))
            ++ List.replicate (m - j) 0,
          (List.range (j + 1)).map (fun t =>
            (⟨.dev_pm_domain_attach_by_name (i + t), (attached_ptr hw (i + t) : Int)⟩ : Event)),
          some (to_int (if PTR_ERR (attached_ptr hw (i + j)) ≠ 0
            then PTR_ERR (attached_ptr hw (i + j)) else -ENODATA))) := by
  induction j generalizing n i m A with
  | zero =>
    obtain ⟨n, rfl⟩ : ∃ n', n = n' + 1 := ⟨n - 1, by omega⟩
    obtain ⟨m, rfl⟩ : ∃ m', m = m' + 1 := ⟨m - 1, by omega⟩
    have hf : IS_ERR_OR_NULL (hw.dev_pm_domain_attach_by_name i % 2 ^ 64) = true := by
      simpa [attached_ptr] using hfail
    subst hA
    simp only [attach_loop, hf, if_true, List.replicate_succ, set_at_length, List.range_zero,
      List.map_nil, List.append_nil, Nat.sub_zero, List.range_succ, List.nil_append,
      List.map_cons, Nat.add_zero, attached_ptr]
  | succ j ih =>
    obtain ⟨n, rfl⟩ : ∃ n', n = n' + 1 := ⟨n - 1, by omega⟩
    obtain ⟨m, rfl⟩ : ∃ m', m = m' + 1 := ⟨m - 1, by omega⟩
    have h0 : IS_ERR_OR_NULL (hw.dev_pm_domain_attach_by_name i % 2 ^ 64) = false := by
      simpa [attached_ptr] using hok 0 (Nat.succ_pos j)
    have ih1 := ih n (i + 1) m (A ++ [hw.dev_pm_domain_attach_by_name i % 2 ^ 64])
      (by simp [hA]) (by omega) (by omega)
      (fun t ht => by
        have := hok (t + 1) (Nat.succ_lt_succ ht)
        simpa [Nat.add_assoc, Nat.add_comm 1 t] using this)
      (by simpa [Nat.add_assoc, Nat.add_comm 1 j] using hfail)
    subst hA
    have hset : (A ++ 0 :: List.replicate m 0).set A.length
          (hw.dev_pm_domain_attach_by_name A.length % 2 ^ 64)
        = (A ++ [hw.dev_pm_domain_attach_by_name A.length % 2 ^ 64]) ++ List.replicate m 0 := by
      rw [set_at_length]
      simp
    rw [List.range_succ_eq_map j, List.range_succ_eq_map (j + 1)]
    simp only [attach_loop, h0, List.replicate_succ, hset, ih1, Bool.false_eq_true, if_false,
      List.map_cons, List.map_map, Nat.add_zero, Nat.add_sub_add_right]
    refine Prod.ext ?_ (Prod.ext ?_ ?_)
    · simp [attached_ptr, Function.comp_def, Nat.add_assoc, Nat.add_comm 1]
    · simp [attached_ptr, Function.comp_def, Nat.add_assoc, Nat.add_comm 1]
    · simp [attached_ptr, Nat.add_assoc, Nat.add_comm 1]

theorem detach_loop_zeros (m : Nat) : detach_loop (List.replicate m 0) = [] := by
  induction m with
  | zero => rfl
  | succ m ih => simp [List.replicate_succ, detach_loop, ih]

theorem detach_loop_handles (B : List Nat) (m : Nat) (hB : ∀ b ∈ B, b ≠ 0) :
    detach_loop (B ++ List.replicate m 0)
      = B.map (fun d => (⟨.dev_pm_domain_detach d, 0⟩ : Event)) := by
  induction B with
  | nil => simpa using detach_loop_zeros m
  | cons b B ih =>
    have hb : b ≠ 0 := hB b (List.mem_cons_self _ _)
    simp [detach_loop, hb, ih (fun x hx => hB x (List.mem_cons_of_mem _ hx))]

theorem live_handles_attached (ptr : Nat → Nat) (is : List Nat) (L : List Nat)
    (rest : List Event) (hok : ∀ i ∈ is, IS_ERR_OR_NULL (ptr i) = false) :
    live_handles L
        (is.map (fun i => (⟨.dev_pm_domain_attach_by_name i, (ptr i : Int)⟩ : Event)) ++ rest)
      = live_handles ((is.map ptr).reverse ++ L) rest := by
  induction is generalizing L with
  | nil => rfl
  | cons i is ih =>
    have h0 := hok i (List.mem_cons_self _ _)
    have ih1 := ih (ptr i :: L) (fun x hx => hok x (List.mem_cons_of_mem _ hx))
    rw [List.map_cons, List.cons_append, List.map_cons, List.reverse_cons, List.append_assoc,
      List.singleton_append, ← ih1]
    simp only [live_handles, Int.toNat_ofNat, h0, Bool.false_eq_true, if_false]

theorem live_handles_detached (D L : List Nat) (h : L.Perm D) :
    live_handles L (D.map (fun d => (⟨.dev_pm_domain_detach d, 0⟩ : Event))) = some [] := by
  induction D generalizing L with
  | nil =>
    have : L = [] := List.Perm.eq_nil h
    subst this
    rfl
  | cons d D ih =>
    have hmem : d ∈ L := h.symm.subset (List.mem_cons_self _ _)
    have hperm : (L.erase d).Perm D := by
      have := h.erase d
      simpa using this
    simp only [List.map_cons, live_handles, hmem, if_true, ih _ hperm]

/-- C7: `pm_domain_init` started with every domain slot empty, with a count
that passes validation, whose attach of domain `k` is the first to fail (error
pointer or `NULL`, `-EPROBE_DEFER` or not): it attaches domains `0..k` and no
other, then detaches each of the handles of domains `0..k-1` once, so that no
handle is left attached, and returns a negative error, the error of the
pointer, or `-ENODATA` for `NULL`.  The slots `0..k-1` still hold the detached
handles afterwards. -/
theorem pm_domain_init_rollback (hw : HW) (kbdev : kbase_device) (k : Nat)
    (hempty : ∀ d ∈ kbdev.pm_domain_devs, d = 0)
    (hcount : ¬ (hw.of_count_phandle_with_args < 2 ∧ kbdev.num_pm_domains < 2))
    (hnames : hw.of_count_phandle_with_args = hw.of_property_count_strings)
    (hneeded : hw.of_count_phandle_with_args = kbdev.num_pm_domains)
    (hint : hw.of_count_phandle_with_args < 2 ^ 31)
    (hcap : hw.of_count_phandle_with_args.toNat ≤ kbdev.pm_domain_devs.length)
    (hread : 0 ≤ hw.of_property_read_string_array)
    (hk : k < hw.of_count_phandle_with_args.toNat)
    (hok : ∀ i, i < k → IS_ERR_OR_NULL (attached_ptr hw i) = false)
    (hfail : IS_ERR_OR_NULL (attached_ptr hw k) = true) :
    pm_domain_init hw kbdev
      = ({ kbdev with
            pm_domain_devs := (List.range k).map (attached_ptr hw)
              ++ List.replicate (kbdev.pm_domain_devs.length - k) 0 },
          (List.range (k + 1)).map (fun i =>
              (⟨.dev_pm_domain_attach_by_name i, (attached_ptr hw i : Int)⟩ : Event))
            ++ (List.range k).map (fun i =>
              (⟨.dev_pm_domain_detach (attached_ptr hw i), 0⟩ : Event)),
          if attached_ptr hw k = 0 then -ENODATA else (attached_ptr hw k : Int) - 2 ^ 64) ∧
    (if attached_ptr hw k = 0 then -ENODATA else (attached_ptr hw k : Int) - 2 ^ 64) < 0 ∧
    live_handles []
        ((List.range (k + 1)).map (fun i =>
            (⟨.dev_pm_domain_attach_by_name i, (attached_ptr hw i : Int)⟩ : Event))
          ++ (List.range k).map (fun i =>
            (⟨.dev_pm_domain_detach (attached_ptr hw i), 0⟩ : Event)))
      = some [] := by
  have hp : attached_ptr hw k < 2 ^ 64 := Nat.mod_lt _ (by norm_num)
  obtain ⟨herr, hneg⟩ := attach_error_eq (attached_ptr hw k) hp hfail
  have hslots : kbdev.pm_domain_devs = List.replicate kbdev.pm_domain_devs.length 0 :=
    List.eq_replicate_iff.mpr ⟨rfl, hempty⟩
  have hloop := attach_loop_fail hw k hw.of_count_phandle_with_args.toNat 0
    kbdev.pm_domain_devs.length [] rfl hk (by omega) (by simpa using hok) (by simpa using hfail)
  simp only [List.nil_append, Nat.zero_add] at hloop
  rw [← hslots] at hloop
  have hnz : ∀ b ∈ (List.range k).map (fun t => attached_ptr hw t), b ≠ 0 := by
    intro b hb
    obtain ⟨i, hi, rfl⟩ := List.mem_map.mp hb
    have := hok i (List.mem_range.mp hi)
    intro h0
    simp [h0, IS_ERR_OR_NULL] at this
  have hge : (2 : Int) ≤ hw.of_count_phandle_with_args := by omega
  have hmod : (hw.of_count_phandle_with_args % 2 ^ 64).toNat
      = hw.of_count_phandle_with_args.toNat := by
    rw [Int.emod_eq_of_lt (by omega) (by omega)]
  refine ⟨?_, hneg, ?_⟩
  · unfold pm_domain_init
    simp only [hcount, if_false]
    simp only [if_false, ne_eq, hnames.symm, not_true_eq_false, hneeded.symm, hmod,
      gt_iff_lt, not_lt.mpr hcap, not_lt.mpr hread, hloop, pm_domain_term,
      detach_loop_handles _ _ hnz, herr, List.map_map]
    rfl
  · rw [List.range_succ, List.map_append, List.append_assoc,
      live_handles_attached (attached_ptr hw) (List.range k) [] _
        (fun i hi => hok i (List.mem_range.mp hi))]
    simp only [List.map_cons, List.map_nil, List.singleton_append, live_handles,
      Int.toNat_ofNat, hfail, if_true, List.append_nil]
    have := live_handles_detached ((List.range k).map (attached_ptr hw))
      ((List.range k).map (attached_ptr hw)).reverse (List.reverse_perm _)
    simpa [List.map_map, Function.comp_def] using this

/-- Witness of C7: two domains, the attach of domain 1 is deferred. -/
theorem pm_domain_init_rollback_witness :
    pm_domain_init hw_defer kbdev_fresh
      = ({ kbdev_fresh with pm_domain_devs := [4096, 0, 0] },
          [⟨.dev_pm_domain_attach_by_name 0, 4096⟩,
           ⟨.dev_pm_domain_attach_by_name 1, 2 ^ 64 - 517⟩,
           ⟨.dev_pm_domain_detach 4096, 0⟩],
          -EPROBE_DEFER) :=
  (pm_domain_init_rollback hw_defer kbdev_fresh 1 (by decide) (by decide) (by decide)
    (by decide) (by decide) (by decide) (by decide) (by decide)
    (by intro i hi; have : i = 0 := by omega
        subst this; decide)
    (by decide)).1

/-! ## Teardown after a failed discovery, and the initial clock switch -/

/-- C9 at the failing input: the attach of domain 1 is deferred, so
`pm_domain_init` detaches the handle `4096` of domain 0 and returns
`-EPROBE_DEFER`, leaving that handle in slot 0; `platform_term`, called in that
state, drops the platform context and passes the handle `4096` to
`dev_pm_domain_detach` a second time. -/
theorem platform_term_detaches_twice :
    pm_domain_init hw_defer kbdev_fresh
      = ({ kbdev_fresh with pm_domain_devs := [4096, 0, 0] },
          [⟨.dev_pm_domain_attach_by_name 0, 4096⟩,
           ⟨.dev_pm_domain_attach_by_name 1, 2 ^ 64 - 517⟩,
           ⟨.dev_pm_domain_detach 4096, 0⟩],
          -EPROBE_DEFER) ∧
    platform_term (pm_domain_init hw_defer kbdev_fresh).1
      = ({ kbdev_fresh with pm_domain_devs := [4096, 0, 0], platform_context := none },
          [⟨.dev_pm_domain_detach 4096, 0⟩]) ∧
    live_handles [] (pm_domain_init hw_defer kbdev_fresh).2.1 = some [] ∧
    live_handles []
        ((pm_domain_init hw_defer kbdev_fresh).2.1
          ++ (platform_term (pm_domain_init hw_defer kbdev_fresh).1).2) = none := by
  refine ⟨by decide, by decide, by decide, by decide⟩

/-- The clock calls of `platform_init`, in general: once `mali_mfgsys_init` has
succeeded, `platform_init` issues, after the autosuspend setup, exactly the
calls that `set_frequency` to the same rate issues from the same state
when the record differs from the target, and returns what it returns; but it
never writes the recorded frequency. -/
theorem platform_init_clock_calls (cfg : Config) (hw : HW) (kbdev kbdev1 : kbase_device)
    (mfg : mfg_base) (ev1 : List Event) (hk : hw.devm_kzalloc ≠ 0)
    (hinit : mali_mfgsys_init cfg hw kbdev ⟨0, 0, 0, false⟩ = (kbdev1, mfg, ev1, 0))
    (hne : kbdev1.current_freqs0 ≠ GPU_FREQ_MAX_HZ cfg) :
    ∃ s evs r,
      set_frequency hw { kbdev1 with platform_context := some mfg }
          (GPU_FREQ_MAX_HZ cfg) = .ret (s, evs, r) ∧
      (platform_init cfg hw kbdev).2.1
        = [⟨.devm_kzalloc, (hw.devm_kzalloc : Int)⟩] ++ ev1
            ++ autosuspend_loop kbdev1.num_pm_domains.toNat 0 ++ evs ∧
      (platform_init cfg hw kbdev).2.2 = r ∧
      (platform_init cfg hw kbdev).1.current_freqs0 = kbdev1.current_freqs0 := by
  by_cases h1 : hw.clk_set_parent .mux .sub = 0
  · by_cases h2 : hw.clk_set_rate .main (GPU_FREQ_MAX_HZ cfg) = 0
    · refine ⟨{ kbdev1 with platform_context := some mfg,
                            current_freqs0 := GPU_FREQ_MAX_HZ cfg },
        [⟨.clk_set_parent .mux .sub, 0⟩, ⟨.clk_set_rate .main (GPU_FREQ_MAX_HZ cfg), 0⟩,
         ⟨.clk_set_parent .mux .main, hw.clk_set_parent .mux .main⟩],
        hw.clk_set_parent .mux .main, ?_, ?_, ?_, ?_⟩ <;>
      by_cases h3 : hw.clk_set_parent .mux .main = 0 <;>
      simp [set_frequency, platform_init, hk, hinit, hne, h1, h2, h3]
    · refine ⟨{ kbdev1 with platform_context := some mfg },
        [⟨.clk_set_parent .mux .sub, 0⟩,
         ⟨.clk_set_rate .main (GPU_FREQ_MAX_HZ cfg),
           hw.clk_set_rate .main (GPU_FREQ_MAX_HZ cfg)⟩],
        hw.clk_set_rate .main (GPU_FREQ_MAX_HZ cfg), ?_, ?_, ?_, ?_⟩ <;>
      simp [set_frequency, platform_init, hk, hinit, hne, h1, h2]
  · refine ⟨{ kbdev1 with platform_context := some mfg },
      [⟨.clk_set_parent .mux .sub, hw.clk_set_parent .mux .sub⟩],
      hw.clk_set_parent .mux .sub, ?_, ?_, ?_, ?_⟩ <;>
    simp [set_frequency, platform_init, hk, hinit, hne, h1]

/-- C8 at the failing input: on a fresh device (nothing recorded), with every
call succeeding, `platform_init` returns `0` after the three clock calls of a
switch to `GPU_FREQ_KHZ_MAX * 1000` (880 MHz) and leaves `0` recorded, where
`set_frequency(880 MHz)` issues the same three calls and records 880 MHz.  On
a device that still records 400 MHz, `platform_init` leaves 400 MHz recorded,
and a `set_frequency(400 MHz)` after it is a no-op that returns `0` although
the main clock was set to 880 MHz. -/
theorem platform_init_leaves_record :
    (platform_init cfg0 hw_ok kbdev_fresh).2.2 = 0 ∧
    (platform_init cfg0 hw_ok kbdev_fresh).2.1.drop 13
      = [⟨.clk_set_parent .mux .sub, 0⟩, ⟨.clk_set_rate .main 880000000, 0⟩,
         ⟨.clk_set_parent .mux .main, 0⟩] ∧
    (platform_init cfg0 hw_ok kbdev_fresh).1.current_freqs0 = 0 ∧
    set_frequency hw_ok (platform_init cfg0 hw_ok kbdev_fresh).1 (cfg0.GPU_FREQ_KHZ_MAX * 1000)
      = .ret ({ (platform_init cfg0 hw_ok kbdev_fresh).1 with current_freqs0 := 880000000 },
          [⟨.clk_set_parent .mux .sub, 0⟩, ⟨.clk_set_rate .main 880000000, 0⟩,
           ⟨.clk_set_parent .mux .main, 0⟩], 0) ∧
    (platform_init cfg0 hw_ok kbdev_used).2.2 = 0 ∧
    (platform_init cfg0 hw_ok kbdev_used).1.current_freqs0 = 400000000 ∧
    set_frequency hw_ok (platform_init cfg0 hw_ok kbdev_used).1 400000000
      = .ret ((platform_init cfg0 hw_ok kbdev_used).1, [], 0) := by
  refine ⟨by decide, by decide, by decide, by decide, by decide, by decide, by decide⟩

end MaliMt8192
